import Mathlib

/-!
Verification of the Titan_trader repository against its natural-language
specification.  The Python sources under titan/ are shallowly embedded:
Python floats become rationals, queue puts become returned lists of
messages, and mutation of an object's attributes becomes explicit state
passing.  Each definition mirrors one function of the source and is named
after it.
-/

namespace Titan

/-! ## Data structures (titan/datastructures.py) -/

/-- Order / fill side, the literal 'BUY' | 'SELL'. -/
inductive Side
  | BUY
  | SELL
deriving DecidableEq, Repr

/-- Order type, the literal 'MARKET' | 'LIMIT'. -/
inductive OrderType
  | MARKET
  | LIMIT
deriving DecidableEq, Repr

/-- Signal kind, the literal 'ENTRY_LONG' | 'ENTRY_SHORT'. -/
inductive SignalType
  | ENTRY_LONG
  | ENTRY_SHORT
deriving DecidableEq, Repr

/-- titan/datastructures.py TradeSignal. -/
structure TradeSignal where
  symbol : String
  signal_type : SignalType
  reason : String
deriving DecidableEq, Repr

/-- titan/datastructures.py Order: price defaults to None, tag to None. -/
structure Order where
  symbol : String
  side : Side
  order_type : OrderType
  qty : ℚ
  price : Option ℚ
  tag : Option String
deriving DecidableEq, Repr

/-- titan/datastructures.py FillConfirmation. -/
structure FillConfirmation where
  symbol : String
  order_id : String
  side : Side
  qty : ℚ
  price : ℚ
  tag : Option String
deriving DecidableEq, Repr

/-! ## Configuration (titan/config.py)

Only the fields the embedded components read.  config.py loads them from
environment variables with the defaults recorded in defaultConfig; it
applies no further validation or clamping to any numeric field. -/

structure Config where
  GRID_WIDTH_PCT : ℚ
  RISK_PCT_PER_TRADE : ℚ
  INITIAL_CAPITAL : ℚ
  MAX_ENTRIES : ℕ
deriving DecidableEq, Repr

/-- The defaults of titan/config.py: GRID_WIDTH_PCT=1.0,
RISK_PCT_PER_TRADE=1.0, INITIAL_CAPITAL=10000.0, MAX_ENTRIES=2. -/
def defaultConfig : Config :=
  ⟨1, 1, 10000, 2⟩

/-! ## Portfolio manager state (titan/portfolio_manager.py) -/

/-- The mutable attributes of PortfolioManager that the embedded methods
read and write (balance, position, entries, grids, last price). -/
structure PMState where
  symbol : String
  balance_real : ℚ
  position_size : ℚ
  avg_entry_price : ℚ
  n_entries : ℕ
  long_grid_prices : List ℚ
  short_grid_prices : List ℚ
  last_known_price : ℚ
deriving DecidableEq, Repr

/-- PortfolioManager.__init__ when no state file exists: balance is the
configured initial capital, everything else empty / zero. -/
def initPMState (cfg : Config) (symbol : String) : PMState :=
  ⟨symbol, cfg.INITIAL_CAPITAL, 0, 0, 0, [], [], 0⟩

/-- The string statuses returned by get_position_status. -/
inductive PositionStatus
  | LONG
  | SHORT
  | FLAT
deriving DecidableEq, Repr

/-- PortfolioManager.get_position_status: LONG if position_size > 0,
SHORT if < 0, else FLAT. -/
def PMState.get_position_status (s : PMState) : PositionStatus :=
  if s.position_size > 0 then PositionStatus.LONG
  else if s.position_size < 0 then PositionStatus.SHORT
  else PositionStatus.FLAT

/-- PortfolioManager._calculate_position_size: the fixed-fractional risk
formula; returns 0 when balance_real <= 0 or the grid width fraction
is <= 0.  No clamping of any kind is applied. -/
def calculate_position_size (cfg : Config) (s : PMState) (entry_price : ℚ) : ℚ :=
  if s.balance_real ≤ 0 then 0
  else
    let risk_amount_usd := s.balance_real * (cfg.RISK_PCT_PER_TRADE / 100)
    let stop_loss_pct := cfg.GRID_WIDTH_PCT / 100
    if stop_loss_pct ≤ 0 then 0
    else
      let position_size_usd := risk_amount_usd / stop_loss_pct
      position_size_usd / entry_price

/-- PortfolioManager._initiate_grid: the list of orders put on the order
queue (one MARKET order, or none when the computed qty is <= 0).  The
Order is built as Order(symbol, side, 'MARKET', qty=order_qty): price and
tag keep their None defaults. -/
def initiate_grid (cfg : Config) (s : PMState) (signal_type : SignalType)
    (entry_price : ℚ) : List Order :=
  let side := if signal_type = SignalType.ENTRY_LONG then Side.BUY else Side.SELL
  let order_qty := calculate_position_size cfg s entry_price
  if order_qty ≤ 0 then []
  else [⟨s.symbol, side, OrderType.MARKET, order_qty, none, none⟩]

/-- PortfolioManager._exit_position: orders put on the order queue; a
single MARKET order for abs(position_size) on the closing side, or none
when already FLAT.  The Order is built without a tag argument, so its tag
is None. -/
def exit_position (s : PMState) : List Order :=
  match s.get_position_status with
  | PositionStatus.FLAT => []
  | st =>
    let side_to_close := if st = PositionStatus.LONG then Side.SELL else Side.BUY
    [⟨s.symbol, side_to_close, OrderType.MARKET, |s.position_size|, none, none⟩]

/-- Mirrors the Python test ('ENTRY' in signal.signal_type): both literal
values 'ENTRY_LONG' and 'ENTRY_SHORT' contain the substring. -/
def signalIsEntry : SignalType → Bool
  | SignalType.ENTRY_LONG => true
  | SignalType.ENTRY_SHORT => true

/-- PortfolioManager._handle_signal: the orders put on the order queue
while handling one signal.  _exit_position does not change the position
(that happens only on the fill), so the second status check sees the same
state. -/
def handle_signal (cfg : Config) (s : PMState) (sig : TradeSignal) : List Order :=
  let current_status := s.get_position_status
  let exit_orders :=
    if (sig.signal_type = SignalType.ENTRY_LONG ∧ current_status = PositionStatus.SHORT)
        ∨ (sig.signal_type = SignalType.ENTRY_SHORT ∧ current_status = PositionStatus.LONG)
    then exit_position s else []
  let entry_orders :=
    if signalIsEntry sig.signal_type ∧ s.get_position_status = PositionStatus.FLAT
    then initiate_grid cfg s sig.signal_type s.last_known_price else []
  exit_orders ++ entry_orders

/-- The loop of _setup_limit_grids for a BUY fill: prices
base*(1 - i*grid_pct) for i in range(1, MAX_ENTRIES). -/
def long_grid_list (cfg : Config) (base_price : ℚ) : List ℚ :=
  (List.range' 1 (cfg.MAX_ENTRIES - 1)).map
    (fun i : ℕ => base_price * (1 - (i : ℚ) * (cfg.GRID_WIDTH_PCT / 100)))

/-- The loop of _setup_limit_grids for a SELL fill: prices
base*(1 + i*grid_pct) for i in range(1, MAX_ENTRIES). -/
def short_grid_list (cfg : Config) (base_price : ℚ) : List ℚ :=
  (List.range' 1 (cfg.MAX_ENTRIES - 1)).map
    (fun i : ℕ => base_price * (1 + (i : ℚ) * (cfg.GRID_WIDTH_PCT / 100)))

/-- PortfolioManager._setup_limit_grids: clears both grid lists, then
stages range(1, MAX_ENTRIES) levels on the side of the fill
(base*(1 - i*g) for BUY, base*(1 + i*g) for SELL).  The qty_per_entry
argument is unused in the source (the limit-order send is commented out).
The staging does not depend on n_entries. -/
def setup_limit_grids (cfg : Config) (base_price qty_per_entry : ℚ) (side : Side)
    (s : PMState) : PMState :=
  match side with
  | Side.BUY =>
    { s with
      long_grid_prices := long_grid_list cfg base_price,
      short_grid_prices := [] }
  | Side.SELL =>
    { s with
      long_grid_prices := [],
      short_grid_prices := short_grid_list cfg base_price }

/-- PortfolioManager._handle_fill_confirmation: updates position_size and
avg_entry_price (volume-weighted, zero when the new size is zero),
increments n_entries, and re-stages the grids.  The source treats every
fill as an entry: it never realizes P&L into balance_real, never resets
n_entries or the grids, and never calls save_state. -/
def handle_fill_confirmation (cfg : Config) (s : PMState)
    (fill : FillConfirmation) : PMState :=
  let s1 :=
    match fill.side with
    | Side.BUY =>
      let current_value := s.avg_entry_price * s.position_size
      let new_value := fill.price * fill.qty
      let new_pos := s.position_size + fill.qty
      let new_avg := if new_pos > 0 then (current_value + new_value) / new_pos else 0
      { s with position_size := new_pos, avg_entry_price := new_avg }
    | Side.SELL =>
      let current_value := s.avg_entry_price * |s.position_size|
      let new_value := fill.price * fill.qty
      let new_pos := s.position_size - fill.qty
      let new_avg := if new_pos ≠ 0 then (current_value + new_value) / |new_pos| else 0
      { s with position_size := new_pos, avg_entry_price := new_avg }
  let s2 := { s1 with n_entries := s.n_entries + 1 }
  setup_limit_grids cfg fill.price fill.qty fill.side s2

/-! ## Order executor (titan/order_executor.py, titan/exchange_connector.py) -/

/-- The fields of the gateway's place_order response that OrderExecutor.run
reads: retCode, result.orderId, result.avgPrice (absent for MARKET orders
in this exchange's response, hence the Option). -/
structure GatewayResponse where
  retCode : ℤ
  orderId : String
  avgPrice : Option ℚ
deriving DecidableEq, Repr

/-- Modelled from the spec: OrderExecutor.run calls
connector.get_last_trade_price(symbol), but no file under the sources
defines that method (titan/exchange_connector.py has only place_order and
get_account_balance).  Per spec section 4.5 the MARKET fill price falls
back to "a subsequent last-trade lookup"; we model the lookup as a
function from the symbol to its last trade price. -/
def LastTradeLookup : Type := String → ℚ

/-- OrderExecutor.run, one loop iteration, as a function of the consumed
order, the gateway response and the last-trade lookup: the list of
FillConfirmations put on the fill queue.  Accepted (retCode 0): exactly
one confirmation, price = order.price for LIMIT (the source would crash
on a LIMIT order without a price, modelled by the getD default) and the
last-trade lookup for MARKET (the avgPrice read is always overwritten for
MARKET orders).  Rejected: the order is logged and dropped, nothing is
emitted and nothing is retried. -/
def executor_step (lookup : LastTradeLookup) (order : Order)
    (resp : GatewayResponse) : List FillConfirmation :=
  if resp.retCode = 0 then
    let fp0 :=
      match order.order_type with
      | OrderType.LIMIT => order.price.getD 0
      | OrderType.MARKET => resp.avgPrice.getD 0
    let fill_price :=
      match order.order_type with
      | OrderType.MARKET => lookup order.symbol
      | OrderType.LIMIT => fp0
    [⟨order.symbol, resp.orderId, order.side, order.qty, fill_price, none⟩]
  else []

/-! ## Vectorized backtester (titan/backtester.py) -/

/-- One kline row as cached by the backtester; ts is the bar timestamp in
milliseconds (the DataFrame index), close the only price field the
claims need. -/
structure Bar where
  ts : ℕ
  close : ℚ
deriving DecidableEq, Repr

/-- data_cache[key].index[-1]: the timestamp of the last cached bar. -/
def lastTs (l : List Bar) : ℕ :=
  (l.getLast?).elim 0 Bar.ts

/-- The get_kline request parameters computed by _fetch_historical_data:
start = last cached timestamp + 1 when a cache exists (None otherwise),
limit = 48*60/interval on the first fetch and 200 afterwards. -/
structure FetchRequest where
  start : Option ℕ
  limit : ℕ
deriving DecidableEq, Repr

/-- The since_timestamp / limit computation of _fetch_historical_data. -/
def fetchRequest (cache : Option (List Bar)) (interval : ℕ) : FetchRequest :=
  let since :=
    match cache with
    | some df => lastTs df + 1
    | none => 0
  ⟨if since > 0 then some since else none,
   if since = 0 then 48 * 60 / interval else 200⟩

/-- pandas combined[~combined.index.duplicated(keep='last')]: keeps a row
iff no later row carries the same timestamp, preserving order. -/
def dedupKeepLast : List Bar → List Bar
  | [] => []
  | b :: rest =>
    if rest.any (fun c => c.ts = b.ts) then dedupKeepLast rest
    else b :: dedupKeepLast rest

/-- DataFrame.tail(n): the last n rows. -/
def tailN (n : ℕ) (l : List Bar) : List Bar :=
  l.drop (l.length - n)

/-- new_df.sort_index(): sort the fetched rows by timestamp. -/
def sortBars (l : List Bar) : List Bar :=
  l.insertionSort (fun a b => a.ts ≤ b.ts)

/-- The cache update of _fetch_historical_data, as a function of the
current cache entry and the kline rows of the response: on a non-empty
response the sorted new rows are appended to the cache, deduplicated by
timestamp keeping the last occurrence, and trimmed with tail(limit) —
where limit is the request limit, i.e. 200 on every incremental fetch;
on an empty response the cache is returned unchanged. -/
def fetchUpdate (cache : Option (List Bar)) (interval : ℕ)
    (resp : List Bar) : List Bar :=
  let limit := (fetchRequest cache interval).limit
  if resp = [] then
    match cache with
    | some df => df
    | none => []
  else
    let new_df := sortBars resp
    match cache with
    | some df => tailN limit (dedupKeepLast (df ++ new_df))
    | none => new_df

/-- The performance dict of _run_single_backtest. -/
structure Perf where
  net_profit : ℚ
  win_rate : ℚ
deriving DecidableEq, Repr

/-- The body of _run_single_backtest after its length guard: the
pandas_ta supertrend call (an external library) followed by the
vectorized position / return computation of lines 70-93 of
titan/backtester.py.  No claim depends on its value, so it is kept as an
explicit function parameter of the optimization. -/
def BacktestCore : Type := List Bar → ℕ → ℚ → Perf

/-- _run_single_backtest: returns the {-100, 0} sentinel when the data is
empty or shorter than the supertrend period, otherwise the result of the
indicator computation. -/
def run_single_backtest (core : BacktestCore) (data : List Bar)
    (period : ℕ) (multiplier : ℚ) : Perf :=
  if data.length = 0 ∨ data.length < period then ⟨-100, 0⟩
  else core data period multiplier

/-- One point of the 3 x 3 x 5 search grid. -/
structure Combo where
  timeframe : ℕ
  period : ℕ
  multiplier : ℚ
deriving DecidableEq, Repr

/-- self.timeframes = [1, 5, 15]. -/
def timeframes : List ℕ := [1, 5, 15]

/-- self.param_grid['period'] = [20, 30, 40]. -/
def periods : List ℕ := [20, 30, 40]

/-- self.param_grid['multiplier'] = [2.0, 2.5, 3.0, 3.5, 4.0]. -/
def multipliers : List ℚ := [2, 5/2, 3, 7/2, 4]

/-- The best_overall_params / best_overall_performance pair once it has
been set. -/
structure OptBest where
  params : Combo
  perf : Perf
deriving DecidableEq, Repr

/-- One comparison of run_optimization_for_ticker's inner loop: update
the running best iff the new net_profit strictly exceeds the current one
(initially the -101 of best_overall_performance). -/
def optStep (perfOf : Combo → Perf) (acc : Option OptBest) (c : Combo) :
    Option OptBest :=
  if (perfOf c).net_profit > (acc.elim (-101 : ℚ) (fun b => b.perf.net_profit))
  then some ⟨c, perfOf c⟩ else acc

/-- The grid points run_optimization_for_ticker actually evaluates: every
(period, multiplier) for each timeframe whose fetched data is non-empty
(empty data skips the whole timeframe with continue). -/
def evalCombos (fetch : ℕ → List Bar) : List Combo :=
  timeframes.flatMap (fun tf =>
    if (fetch tf).length = 0 then []
    else periods.flatMap (fun p =>
      multipliers.map (fun m => ⟨tf, p, m⟩)))

/-- VectorizedBacktester.run_optimization_for_ticker, as a function of
the per-timeframe fetched data: folds the strict-improvement comparison
over the evaluated grid and returns None iff best_overall_params was
never set. -/
def run_optimization_for_ticker (core : BacktestCore)
    (fetch : ℕ → List Bar) : Option OptBest :=
  (evalCombos fetch).foldl
    (optStep (fun c =>
      run_single_backtest core (fetch c.timeframe) c.period c.multiplier))
    none

/-! ## Orchestrator reconciliation (titan/orchestrator.py) -/

/-- One backtest result as ranked in step 5 of run_optimization_cycle. -/
structure OptResult where
  ticker : String
  params : Combo
  net_profit : ℚ
deriving DecidableEq, Repr

/-- A lifecycle command sent to the Bot Manager. -/
inductive BotCommand
  | start (symbol : String) (params : Combo)
  | stop (symbol : String) (manage_position : Bool)
deriving DecidableEq, Repr

/-- What steps 5, 6 and 9 of run_optimization_cycle produce: the two set
differences, the Bot Manager commands issued while iterating them, and
the value assigned to current_top_5_tokens. -/
structure CycleOutcome where
  to_start : List String
  to_stop : List String
  commands : List BotCommand
  new_selection : List String
deriving DecidableEq, Repr

/-- successful_results.sort(key=net_profit, reverse=True). -/
def sortResultsDesc (rs : List OptResult) : List OptResult :=
  rs.insertionSort (fun a b => b.net_profit ≤ a.net_profit)

/-- Steps 5, 6 and 9 of MasterOrchestrator.run_optimization_cycle: rank
the successful results by net_profit descending, take the top 5, compute
tokens_to_start / tokens_to_stop as set differences against the current
selection, then assign current_top_5_tokens.  The bodies of the two
reconciliation loops only log "COMMAND: Start bot ..." / "COMMAND: Stop
bot ...": the self.bot_manager.start_bot and self.bot_manager.stop_bot
calls are commented out in the source (orchestrator.py lines 123 and
128), so no Bot Manager command is issued. -/
def run_reconciliation (current : List String) (results : List OptResult) :
    CycleOutcome :=
  let sorted := sortResultsDesc results
  let new_top_5 := (sorted.take 5).map OptResult.ticker
  let to_start := new_top_5.filter (fun t => ¬ t ∈ current)
  let to_stop := current.filter (fun t => ¬ t ∈ new_top_5)
  ⟨to_start, to_stop, [], new_top_5⟩

/-! ## Theorems -/

/-- C1: the spec says a fill whose signed size crosses through 0 realizes
P&L into balance_real, resets the position state and persists it.  The
code does not: on the spec's own scenario (LONG 0.3333 at avg 30000,
SELL fill of 0.3333 at 30300, expected balance 10099.99 and a full
reset), _handle_fill_confirmation leaves balance_real at 10000,
increments n_entries to 2 and stages a fresh short grid. -/
theorem c1_flattening_fill_no_pnl_no_reset :
    handle_fill_confirmation defaultConfig
      ⟨"BTCUSDT", 10000, 3333/10000, 30000, 1, [29700], [], 30000⟩
      ⟨"BTCUSDT", "oid-1", Side.SELL, 3333/10000, 30300, none⟩
    = ⟨"BTCUSDT", 10000, 0, 0, 2, [], [30603], 30000⟩ := by
  norm_num [handle_fill_confirmation, setup_limit_grids, short_grid_list,
    defaultConfig, List.range', PMState.mk.injEq]

/-- C5: the invariant sign(position_size) = 0 implies avg_entry_price = 0,
n_entries = 0 and empty grids is violated in a state reachable from the
initial state by two fills (a BUY entry then a SELL of the same size):
the position is flat but n_entries = 2 and the short grid is non-empty. -/
theorem c5_flat_invariant_violated :
    (handle_fill_confirmation defaultConfig
        (handle_fill_confirmation defaultConfig
          (initPMState defaultConfig "BTCUSDT")
          ⟨"BTCUSDT", "oid-1", Side.BUY, 3333/10000, 30000, none⟩)
        ⟨"BTCUSDT", "oid-2", Side.SELL, 3333/10000, 30300, none⟩).position_size = 0
    ∧ (handle_fill_confirmation defaultConfig
        (handle_fill_confirmation defaultConfig
          (initPMState defaultConfig "BTCUSDT")
          ⟨"BTCUSDT", "oid-1", Side.BUY, 3333/10000, 30000, none⟩)
        ⟨"BTCUSDT", "oid-2", Side.SELL, 3333/10000, 30300, none⟩).n_entries = 2
    ∧ (handle_fill_confirmation defaultConfig
        (handle_fill_confirmation defaultConfig
          (initPMState defaultConfig "BTCUSDT")
          ⟨"BTCUSDT", "oid-1", Side.BUY, 3333/10000, 30000, none⟩)
        ⟨"BTCUSDT", "oid-2", Side.SELL, 3333/10000, 30300, none⟩).short_grid_prices ≠ [] := by
  norm_num [handle_fill_confirmation, setup_limit_grids, long_grid_list,
    short_grid_list, initPMState, defaultConfig, List.range']

/-- C10: after any fill, at most one of the two grid lists is non-empty:
_setup_limit_grids clears both lists and repopulates only the side of the
fill. -/
theorem c10_one_sided_grids (cfg : Config) (s : PMState) (fill : FillConfirmation) :
    (handle_fill_confirmation cfg s fill).long_grid_prices = []
    ∨ (handle_fill_confirmation cfg s fill).short_grid_prices = [] := by
  rcases fill with ⟨sym, oid, side, qty, price, tag⟩
  cases side <;> simp [handle_fill_confirmation, setup_limit_grids]

/-- C4, counterexample to the claimed tag: on a reversal signal
(ENTRY_LONG while SHORT 0.5) the single flattening MARKET order is built
without a tag argument, so its tag is None, not EXIT_FLATTEN as the
claim states. -/
theorem c4_flatten_tag_counterexample :
    handle_signal defaultConfig
      ⟨"BTCUSDT", 10000, -(1/2), 30000, 1, [], [29700], 29000⟩
      ⟨"BTCUSDT", SignalType.ENTRY_LONG, "SuperTrend flipped to bullish"⟩
    = [⟨"BTCUSDT", Side.BUY, OrderType.MARKET, 1/2, none, none⟩]
    ∧ (none : Option String) ≠ some "EXIT_FLATTEN" := by
  norm_num [handle_signal, exit_position, PMState.get_position_status,
    signalIsEntry, defaultConfig, Order.mk.injEq]
  exact ⟨⟨by simp, by simp⟩, by simp⟩

/-- C4, amended: on an ENTRY_LONG signal while SHORT or an ENTRY_SHORT
signal while LONG, the manager enqueues exactly one MARKET order
flattening the current position — with tag None, the source sets no
EXIT_FLATTEN tag — and enqueues no opposing entry during the same signal
handling (the position is still open, so the FLAT check fails). -/
theorem c4_reversal_flatten_only (cfg : Config) (s : PMState) (sig : TradeSignal)
    (h : (sig.signal_type = SignalType.ENTRY_LONG
            ∧ s.get_position_status = PositionStatus.SHORT)
       ∨ (sig.signal_type = SignalType.ENTRY_SHORT
            ∧ s.get_position_status = PositionStatus.LONG)) :
    handle_signal cfg s sig
      = [⟨s.symbol,
          if s.get_position_status = PositionStatus.LONG then Side.SELL else Side.BUY,
          OrderType.MARKET, |s.position_size|, none, none⟩] := by
  rcases h with ⟨h1, h2⟩ | ⟨h1, h2⟩ <;>
    simp [handle_signal, exit_position, h1, h2]

/-- Witness for c4_reversal_flatten_only at a concrete LONG state hit by
an ENTRY_SHORT signal. -/
theorem c4_reversal_flatten_only_witness :
    handle_signal defaultConfig
      ⟨"ETHUSDT", 10000, 1/2, 30000, 1, [29700], [], 31000⟩
      ⟨"ETHUSDT", SignalType.ENTRY_SHORT, "SuperTrend flipped to bearish"⟩
      = [⟨"ETHUSDT", Side.SELL, OrderType.MARKET, 1/2, none, none⟩] := by
  exact (c4_reversal_flatten_only defaultConfig
      ⟨"ETHUSDT", 10000, 1/2, 30000, 1, [29700], [], 31000⟩
      ⟨"ETHUSDT", SignalType.ENTRY_SHORT, "SuperTrend flipped to bearish"⟩
      (Or.inr ⟨rfl, by norm_num [PMState.get_position_status]⟩)).trans
    (by norm_num [PMState.get_position_status, Order.mk.injEq])

/-- C3, counterexample to the 3% clamp: with RISK_PCT_PER_TRADE = 5 (the
config loader applies no cap) and equity 10000, an entry at price 30000
enqueues an order of qty 5/3 whose risk over one grid width,
qty x price x (GRID_WIDTH_PCT/100) = 500, exceeds 3% of equity = 300. -/
theorem c3_risk_clamp_counterexample :
    initiate_grid ⟨1, 5, 10000, 2⟩
        ⟨"BTCUSDT", 10000, 0, 0, 0, [], [], 30000⟩
        SignalType.ENTRY_LONG 30000
      = [⟨"BTCUSDT", Side.BUY, OrderType.MARKET, 5/3, none, none⟩]
    ∧ ¬ ((5/3 : ℚ) * 30000 * (1/100) ≤ (3/100) * 10000) := by
  norm_num [initiate_grid, calculate_position_size, Order.mk.injEq]

/-- C3, amended: the computed quantity equals
((balance_real x RISK_PCT_PER_TRADE/100) / (GRID_WIDTH_PCT/100)) / P when
balance_real > 0 and the stop-distance fraction > 0; otherwise the
quantity is 0 and no order is enqueued.  No clamp is applied anywhere. -/
theorem c3_position_sizing (cfg : Config) (s : PMState) (P : ℚ) :
    (0 < s.balance_real → 0 < cfg.GRID_WIDTH_PCT / 100 →
      calculate_position_size cfg s P
        = ((s.balance_real * (cfg.RISK_PCT_PER_TRADE / 100))
            / (cfg.GRID_WIDTH_PCT / 100)) / P)
    ∧ ((s.balance_real ≤ 0 ∨ cfg.GRID_WIDTH_PCT / 100 ≤ 0) →
      calculate_position_size cfg s P = 0
      ∧ ∀ st, initiate_grid cfg s st P = []) := by
  constructor
  · intro hb hg
    simp [calculate_position_size, not_le.mpr hb, not_le.mpr hg]
  · intro h
    have hz : calculate_position_size cfg s P = 0 := by
      rcases h with h | h <;> simp [calculate_position_size, h]
    exact ⟨hz, fun st => by simp [initiate_grid, hz]⟩

/-- Witness for c3_position_sizing: the default config at equity 10000
and price 30000 yields the spec formula's value. -/
theorem c3_position_sizing_witness :
    calculate_position_size defaultConfig
        ⟨"BTCUSDT", 10000, 0, 0, 0, [], [], 0⟩ 30000
      = ((10000 * ((1 : ℚ) / 100)) / ((1 : ℚ) / 100)) / 30000 := by
  exact (c3_position_sizing defaultConfig
      ⟨"BTCUSDT", 10000, 0, 0, 0, [], [], 0⟩ 30000).1 (by norm_num)
    (by norm_num [defaultConfig])

/-- C7: the spec says each reconciliation cycle calls stop_bot for every
symbol in to_stop and start_bot for every symbol in to_start.  In the
source both calls are commented out and the loops only log: with
current selection {AUSDT} and a new top-5 of {BUSDT}, the set
differences are computed and the selection is updated, but the list of
Bot Manager commands issued is empty. -/
theorem c7_reconciliation_issues_no_commands :
    run_reconciliation ["AUSDT"] [⟨"BUSDT", ⟨1, 20, 2⟩, 10⟩]
      = ⟨["BUSDT"], ["AUSDT"], [], ["BUSDT"]⟩ := by
  decide

/-- C2: for every order consumed by the executor, an accepted gateway
response (retCode 0) yields exactly one FillConfirmation — priced at
order.price for LIMIT orders and at the last-trade lookup for MARKET
orders — and a rejected response yields nothing: no retry, no state
change.  The last-trade lookup is spec-modelled (see LastTradeLookup). -/
theorem c2_executor_fill_dichotomy (lookup : LastTradeLookup) (order : Order)
    (resp : GatewayResponse) :
    (resp.retCode = 0 →
      (∀ p, order.order_type = OrderType.LIMIT → order.price = some p →
        executor_step lookup order resp
          = [⟨order.symbol, resp.orderId, order.side, order.qty, p, none⟩])
      ∧ (order.order_type = OrderType.MARKET →
        executor_step lookup order resp
          = [⟨order.symbol, resp.orderId, order.side, order.qty,
              lookup order.symbol, none⟩]))
    ∧ (resp.retCode ≠ 0 → executor_step lookup order resp = []) := by
  refine ⟨fun h0 => ⟨fun p hL hp => ?_, fun hM => ?_⟩, fun hne => ?_⟩
  · simp [executor_step, h0, hL, hp]
  · simp [executor_step, h0, hM]
  · simp [executor_step, hne]

/-- Witness for c2_executor_fill_dichotomy: a concrete accepted LIMIT
order and a concrete rejected MARKET order. -/
theorem c2_executor_fill_dichotomy_witness :
    executor_step (fun _ => 42)
        ⟨"BTCUSDT", Side.BUY, OrderType.LIMIT, 1, some 100, none⟩
        ⟨0, "oid-7", none⟩
      = [⟨"BTCUSDT", "oid-7", Side.BUY, 1, 100, none⟩]
    ∧ executor_step (fun _ => 42)
        ⟨"BTCUSDT", Side.SELL, OrderType.MARKET, 2, none, none⟩
        ⟨1, "oid-8", none⟩
      = [] := by
  refine ⟨?_, ?_⟩
  · exact ((c2_executor_fill_dichotomy (fun _ => 42) _ _).1 rfl).1 100 rfl rfl
  · exact (c2_executor_fill_dichotomy (fun _ => 42) _ _).2 (by decide)

/-- Index formula for the staged grid lists: element i of
map f (range' 1 n) is f (1 + i). -/
theorem range'_map_getD (n : ℕ) (f : ℕ → ℚ) (i : ℕ) (hi : i < n) :
    ((List.range' 1 n).map f).getD i 0 = f (1 + i) := by
  have hlen : i < ((List.range' 1 n).map f).length := by simpa using hi
  rw [List.getD_eq_getElem?_getD, List.getElem?_eq_getElem hlen]
  simp [List.getElem_range'_1]

/-- The long grid stages MAX_ENTRIES - 1 levels. -/
theorem long_grid_list_length (cfg : Config) (b : ℚ) :
    (long_grid_list cfg b).length = cfg.MAX_ENTRIES - 1 := by
  unfold long_grid_list
  rw [List.length_map, List.length_range']

/-- The short grid stages MAX_ENTRIES - 1 levels. -/
theorem short_grid_list_length (cfg : Config) (b : ℚ) :
    (short_grid_list cfg b).length = cfg.MAX_ENTRIES - 1 := by
  unfold short_grid_list
  rw [List.length_map, List.length_range']

/-- Level i (0-based) of the long grid is base x (1 - (i+1) x g). -/
theorem long_grid_list_getD (cfg : Config) (b : ℚ) (i : ℕ)
    (hi : i < cfg.MAX_ENTRIES - 1) :
    (long_grid_list cfg b).getD i 0
      = b * (1 - ((i : ℚ) + 1) * (cfg.GRID_WIDTH_PCT / 100)) := by
  unfold long_grid_list
  rw [range'_map_getD _ _ _ hi]
  push_cast
  ring

/-- Level i (0-based) of the short grid is base x (1 + (i+1) x g). -/
theorem short_grid_list_getD (cfg : Config) (b : ℚ) (i : ℕ)
    (hi : i < cfg.MAX_ENTRIES - 1) :
    (short_grid_list cfg b).getD i 0
      = b * (1 + ((i : ℚ) + 1) * (cfg.GRID_WIDTH_PCT / 100)) := by
  unfold short_grid_list
  rw [range'_map_getD _ _ _ hi]
  push_cast
  ring

/-- Field equations of _handle_fill_confirmation for a BUY fill. -/
theorem handle_fill_BUY_fields (cfg : Config) (s : PMState) (sym oid : String)
    (qty price : ℚ) (tag : Option String) :
    (handle_fill_confirmation cfg s ⟨sym, oid, Side.BUY, qty, price, tag⟩).long_grid_prices
        = long_grid_list cfg price
    ∧ (handle_fill_confirmation cfg s ⟨sym, oid, Side.BUY, qty, price, tag⟩).short_grid_prices
        = []
    ∧ (handle_fill_confirmation cfg s ⟨sym, oid, Side.BUY, qty, price, tag⟩).n_entries
        = s.n_entries + 1 :=
  ⟨rfl, rfl, rfl⟩

/-- Field equations of _handle_fill_confirmation for a SELL fill. -/
theorem handle_fill_SELL_fields (cfg : Config) (s : PMState) (sym oid : String)
    (qty price : ℚ) (tag : Option String) :
    (handle_fill_confirmation cfg s ⟨sym, oid, Side.SELL, qty, price, tag⟩).long_grid_prices
        = []
    ∧ (handle_fill_confirmation cfg s ⟨sym, oid, Side.SELL, qty, price, tag⟩).short_grid_prices
        = short_grid_list cfg price
    ∧ (handle_fill_confirmation cfg s ⟨sym, oid, Side.SELL, qty, price, tag⟩).n_entries
        = s.n_entries + 1 :=
  ⟨rfl, rfl, rfl⟩

/-- C6, counterexample to staging "the remaining MAX_ENTRIES - n_entries
levels": on the spec's scale-in scenario the second BUY fill brings
n_entries to MAX_ENTRIES = 2, where the claim stages 0 further levels,
yet the code still stages one long level at 29700 x 0.99 = 29403. -/
theorem c6_staging_at_max_entries_counterexample :
    (handle_fill_confirmation defaultConfig
        ⟨"BTCUSDT", 10000, 3333/10000, 30000, 1, [29700], [], 30000⟩
        ⟨"BTCUSDT", "oid-2", Side.BUY, 3333/10000, 29700, none⟩).n_entries
      = defaultConfig.MAX_ENTRIES
    ∧ (handle_fill_confirmation defaultConfig
        ⟨"BTCUSDT", 10000, 3333/10000, 30000, 1, [29700], [], 30000⟩
        ⟨"BTCUSDT", "oid-2", Side.BUY, 3333/10000, 29700, none⟩).long_grid_prices
      = [29403]
    ∧ ([(29403 : ℚ)] : List ℚ) ≠ [] := by
  norm_num [handle_fill_confirmation, setup_limit_grids, long_grid_list,
    defaultConfig, List.range']

/-- C6, amended: after every fill the manager replaces both grid lists,
staging MAX_ENTRIES - 1 levels on the side of the fill regardless of
n_entries (which is incremented): level i (0-based) of the long grid is
base x (1 - (i+1) x g) and of the short grid base x (1 + (i+1) x g). -/
theorem c6_grid_staging (cfg : Config) (s : PMState) (fill : FillConfirmation) :
    (handle_fill_confirmation cfg s fill).n_entries = s.n_entries + 1
    ∧ ((handle_fill_confirmation cfg s fill).long_grid_prices.length
        = if fill.side = Side.BUY then cfg.MAX_ENTRIES - 1 else 0)
    ∧ ((handle_fill_confirmation cfg s fill).short_grid_prices.length
        = if fill.side = Side.SELL then cfg.MAX_ENTRIES - 1 else 0)
    ∧ (∀ i, i < (handle_fill_confirmation cfg s fill).long_grid_prices.length →
        (handle_fill_confirmation cfg s fill).long_grid_prices.getD i 0
          = fill.price * (1 - ((i : ℚ) + 1) * (cfg.GRID_WIDTH_PCT / 100)))
    ∧ (∀ i, i < (handle_fill_confirmation cfg s fill).short_grid_prices.length →
        (handle_fill_confirmation cfg s fill).short_grid_prices.getD i 0
          = fill.price * (1 + ((i : ℚ) + 1) * (cfg.GRID_WIDTH_PCT / 100))) := by
  rcases fill with ⟨sym, oid, side, qty, price, tag⟩
  cases side
  · obtain ⟨hl, hsh, hn⟩ := handle_fill_BUY_fields cfg s sym oid qty price tag
    refine ⟨hn, ?_, ?_, ?_, ?_⟩
    · simp [hl, long_grid_list_length]
    · simp [hsh]
    · intro i hi
      rw [hl, long_grid_list_length] at hi
      rw [hl]
      exact long_grid_list_getD cfg price i hi
    · intro i hi
      rw [hsh] at hi
      simp at hi
  · obtain ⟨hl, hsh, hn⟩ := handle_fill_SELL_fields cfg s sym oid qty price tag
    refine ⟨hn, ?_, ?_, ?_, ?_⟩
    · simp [hl]
    · simp [hsh, short_grid_list_length]
    · intro i hi
      rw [hl] at hi
      simp at hi
    · intro i hi
      rw [hsh, short_grid_list_length] at hi
      rw [hsh]
      exact short_grid_list_getD cfg price i hi

/-- Witness for c6_grid_staging: a first BUY fill at 30000 under the
default config stages one long level. -/
theorem c6_grid_staging_witness :
    (handle_fill_confirmation defaultConfig
        ⟨"BTCUSDT", 10000, 0, 0, 0, [], [], 0⟩
        ⟨"BTCUSDT", "oid-1", Side.BUY, 1, 30000, none⟩).n_entries = 1
    ∧ (handle_fill_confirmation defaultConfig
        ⟨"BTCUSDT", 10000, 0, 0, 0, [], [], 0⟩
        ⟨"BTCUSDT", "oid-1", Side.BUY, 1, 30000, none⟩).long_grid_prices.getD 0 0
      = 29700 := by
  have h := c6_grid_staging defaultConfig
      ⟨"BTCUSDT", 10000, 0, 0, 0, [], [], 0⟩
      ⟨"BTCUSDT", "oid-1", Side.BUY, 1, 30000, none⟩
  refine ⟨h.1, ?_⟩
  have hlen := h.2.1
  have hget := h.2.2.2.1 0 (by rw [hlen]; norm_num [defaultConfig])
  rw [hget]
  norm_num [defaultConfig]

/-- The dedup pass of the backtester cache merge only drops rows. -/
theorem dedupKeepLast_sublist : ∀ l : List Bar, List.Sublist (dedupKeepLast l) l := by
  intro l
  induction l with
  | nil => simp [dedupKeepLast]
  | cons b rest ih =>
    by_cases h : rest.any (fun c => c.ts = b.ts)
    · simpa only [dedupKeepLast, if_pos h] using ih.cons b
    · simpa only [dedupKeepLast, if_neg h] using ih.cons₂ b

/-- The dedup pass leaves no duplicated timestamp. -/
theorem ts_nodup_dedupKeepLast : ∀ l : List Bar, ((dedupKeepLast l).map Bar.ts).Nodup := by
  intro l
  induction l with
  | nil => simp [dedupKeepLast]
  | cons b rest ih =>
    by_cases h : rest.any (fun c => c.ts = b.ts)
    · simpa only [dedupKeepLast, if_pos h] using ih
    · simp only [dedupKeepLast, if_neg h, List.map_cons, List.nodup_cons]
      refine ⟨fun hmem => ?_, ih⟩
      rcases List.mem_map.mp hmem with ⟨c, hc, hts⟩
      exact h (List.any_eq_true.mpr
        ⟨c, (dedupKeepLast_sublist rest).subset hc, by simp [hts]⟩)

set_option maxRecDepth 40000 in
/-- C8, counterexample to the 48-hour trim: with 1-minute bars, a cache
of 201 bars (one minute apart) merged with one newer bar is cut to the
last 200 rows by tail(limit), although all 202 merged bars lie within
48 hours of the newest bar, so a trim to the 48-hour window would keep
all 202. -/
theorem c8_trim_counterexample :
    (fetchUpdate (some ((List.range 201).map (fun i => ⟨i * 60000, 100⟩))) 1
        [⟨201 * 60000, 100⟩]).length = 200
    ∧ (dedupKeepLast ((List.range 201).map (fun i => ⟨i * 60000, 100⟩)
        ++ sortBars [⟨201 * 60000, 100⟩])).length = 202
    ∧ ((List.range 201).map (fun i => (⟨i * 60000, 100⟩ : Bar))
        ++ sortBars [⟨201 * 60000, 100⟩]).all
        (fun b => 201 * 60000 - b.ts < 48 * 60 * 60 * 1000) = true := by
  decide

/-- C8, amended: every fetch after the first requests bars strictly
after the last cached timestamp with limit = 200; the merged cache is
the concatenation deduplicated by timestamp (keeping the later row) and
trimmed to the last 200 rows — the request limit, not the 48-hour
window — and contains no timestamp twice. -/
theorem c8_incremental_fetch (cache : List Bar) (interval : ℕ) (resp : List Bar)
    (hresp : resp ≠ []) :
    (fetchRequest (some cache) interval).start = some (lastTs cache + 1)
    ∧ (fetchRequest (some cache) interval).limit = 200
    ∧ fetchUpdate (some cache) interval resp
        = tailN 200 (dedupKeepLast (cache ++ sortBars resp))
    ∧ ((fetchUpdate (some cache) interval resp).map Bar.ts).Nodup := by
  have hreq : fetchRequest (some cache) interval = ⟨some (lastTs cache + 1), 200⟩ := by
    simp [fetchRequest]
  have hupd : fetchUpdate (some cache) interval resp
      = tailN 200 (dedupKeepLast (cache ++ sortBars resp)) := by
    simp [fetchUpdate, fetchRequest, hresp]
  refine ⟨by rw [hreq], by rw [hreq], hupd, ?_⟩
  rw [hupd]
  have hnd := ts_nodup_dedupKeepLast (cache ++ sortBars resp)
  have : (tailN 200 (dedupKeepLast (cache ++ sortBars resp))).map Bar.ts
      = ((dedupKeepLast (cache ++ sortBars resp)).map Bar.ts).drop
          ((dedupKeepLast (cache ++ sortBars resp)).length - 200) := by
    simp [tailN, List.map_drop]
  rw [this]
  exact (List.drop_sublist _ _).nodup hnd

/-- Witness for c8_incremental_fetch on a one-bar cache and a one-bar
response. -/
theorem c8_incremental_fetch_witness :
    (fetchRequest (some [⟨1, 2⟩]) 1).start = some 2
    ∧ (fetchRequest (some [⟨1, 2⟩]) 1).limit = 200
    ∧ fetchUpdate (some [⟨1, 2⟩]) 1 [⟨5, 3⟩] = [⟨1, 2⟩, ⟨5, 3⟩]
    ∧ ((fetchUpdate (some [⟨1, 2⟩]) 1 [⟨5, 3⟩]).map Bar.ts).Nodup := by
  have h := c8_incremental_fetch [⟨1, 2⟩] 1 [⟨5, 3⟩] (by decide)
  exact ⟨h.1.trans (by decide), h.2.1, h.2.2.1.trans (by decide), h.2.2.2⟩

/-- A fold of optStep started from a set best never returns to none. -/
theorem optFold_some_stays (f : Combo → Perf) :
    ∀ (l : List Combo) (acc : Option OptBest), acc ≠ none →
      l.foldl (optStep f) acc ≠ none := by
  intro l
  induction l with
  | nil => intro acc h; simpa using h
  | cons c cs ih =>
    intro acc h
    simp only [List.foldl_cons]
    refine ih _ ?_
    unfold optStep
    split
    · simp
    · exact h

/-- run_optimization_for_ticker's fold returns none iff every evaluated
net_profit is at most the -101 it starts from. -/
theorem optFold_none_iff (f : Combo → Perf) :
    ∀ l : List Combo,
      l.foldl (optStep f) none = none ↔ ∀ c ∈ l, (f c).net_profit ≤ -101 := by
  intro l
  induction l with
  | nil => simp
  | cons c cs ih =>
    simp only [List.foldl_cons]
    by_cases h : (f c).net_profit > -101
    · have hs : optStep f none c = some ⟨c, f c⟩ := by simp [optStep, h]
      rw [hs]
      constructor
      · intro hnone
        exact absurd hnone (optFold_some_stays f cs _ (by simp))
      · intro hall
        exact absurd (hall c (by simp)) (not_le.mpr h)
    · have hs : optStep f none c = none := by simp [optStep, h]
      rw [hs, ih]
      constructor
      · intro hall d hd
        rcases List.mem_cons.mp hd with rfl | hd'
        · exact not_lt.mp h
        · exact hall d hd'
      · intro hall d hd
        exact hall d (List.mem_cons_of_mem _ hd)

/-- When the fold returns a best, it is one of the evaluated combos and
its net_profit dominates every evaluated combo and the accumulator. -/
theorem optFold_max (f : Combo → Perf) :
    ∀ (l : List Combo) (acc : Option OptBest) (b : OptBest),
      l.foldl (optStep f) acc = some b →
      (acc = some b ∨ ∃ c ∈ l, b = ⟨c, f c⟩)
      ∧ (∀ c ∈ l, (f c).net_profit ≤ b.perf.net_profit)
      ∧ acc.elim (-101 : ℚ) (fun a => a.perf.net_profit) ≤ b.perf.net_profit := by
  intro l
  induction l with
  | nil =>
    intro acc b h
    simp only [List.foldl_nil] at h
    subst h
    exact ⟨Or.inl rfl, by simp, by simp⟩
  | cons c cs ih =>
    intro acc b h
    simp only [List.foldl_cons] at h
    have H := ih (optStep f acc c) b h
    by_cases hc : (f c).net_profit > acc.elim (-101 : ℚ) (fun a => a.perf.net_profit)
    · have hs : optStep f acc c = some ⟨c, f c⟩ := by simp [optStep, hc]
      rw [hs] at H
      have hfc : (f c).net_profit ≤ b.perf.net_profit := by simpa using H.2.2
      refine ⟨?_, ?_, le_trans hc.le hfc⟩
      · rcases H.1 with h1 | ⟨d, hd, hb⟩
        · right
          exact ⟨c, by simp, (Option.some.injEq _ _ ▸ h1).symm⟩
        · right
          exact ⟨d, List.mem_cons_of_mem _ hd, hb⟩
      · intro d hd
        rcases List.mem_cons.mp hd with rfl | hd'
        · exact hfc
        · exact H.2.1 d hd'
    · have hs : optStep f acc c = acc := by simp [optStep, hc]
      rw [hs] at H
      refine ⟨?_, ?_, H.2.2⟩
      · rcases H.1 with h1 | ⟨d, hd, hb⟩
        · exact Or.inl h1
        · exact Or.inr ⟨d, List.mem_cons_of_mem _ hd, hb⟩
      · intro d hd
        rcases List.mem_cons.mp hd with rfl | hd'
        · exact le_trans (not_lt.mp hc) H.2.2
        · exact H.2.1 d hd'

set_option maxRecDepth 40000 in
/-- C9, counterexample to "null exactly when every combination's
net_profit is at most the -100 sentinel": with one bar of data per
timeframe every one of the 45 combinations hits the short-data sentinel
-100, yet optimize still returns the first combination (because -100
beats the -101 the comparison starts from) instead of null. -/
theorem c9_sentinel_counterexample :
    run_optimization_for_ticker (fun _ _ _ => ⟨-100, 0⟩) (fun _ => [⟨0, 1⟩])
      = some ⟨⟨1, 20, 2⟩, ⟨-100, 0⟩⟩
    ∧ ∀ c ∈ evalCombos (fun _ => [⟨0, 1⟩]),
        (run_single_backtest (fun _ _ _ => ⟨-100, 0⟩)
            ((fun _ => [(⟨0, 1⟩ : Bar)]) c.timeframe)
            c.period c.multiplier).net_profit ≤ -100 := by
  decide

/-- C9, amended: optimize returns none iff every evaluated combination
(timeframes with empty data are skipped) has net_profit at most -101;
when it returns a best, that best is one of the evaluated combinations
and its net_profit dominates all of them — in particular the -100
short-data sentinel still produces a non-null result. -/
theorem c9_optimize_characterization (core : BacktestCore) (fetch : ℕ → List Bar) :
    (run_optimization_for_ticker core fetch = none ↔
      ∀ c ∈ evalCombos fetch,
        (run_single_backtest core (fetch c.timeframe) c.period c.multiplier).net_profit
          ≤ -101)
    ∧ (∀ b, run_optimization_for_ticker core fetch = some b →
        (∃ c ∈ evalCombos fetch,
          b = ⟨c, run_single_backtest core (fetch c.timeframe) c.period c.multiplier⟩)
        ∧ ∀ c ∈ evalCombos fetch,
          (run_single_backtest core (fetch c.timeframe) c.period c.multiplier).net_profit
            ≤ b.perf.net_profit) := by
  constructor
  · simpa only [run_optimization_for_ticker] using
      optFold_none_iff
        (fun c => run_single_backtest core (fetch c.timeframe) c.period c.multiplier)
        (evalCombos fetch)
  · intro b hb
    have H := optFold_max
        (fun c => run_single_backtest core (fetch c.timeframe) c.period c.multiplier)
        (evalCombos fetch) none b (by simpa [run_optimization_for_ticker] using hb)
    refine ⟨?_, H.2.1⟩
    rcases H.1 with h1 | h2
    · exact absurd h1 (by simp)
    · exact h2

/-- Witness for c9_optimize_characterization: with empty data on every
timeframe nothing is evaluated and optimize returns none. -/
theorem c9_optimize_characterization_witness :
    run_optimization_for_ticker (fun _ _ _ => ⟨-100, 0⟩) (fun _ => []) = none := by
  exact (c9_optimize_characterization (fun _ _ _ => ⟨-100, 0⟩) (fun _ => [])).1.mpr
    (by decide)

end Titan
